import Mathlib

/-!
Shallow embedding of the overlay/rotation core of `src/src/gstsunxifbsink.c`
(gst-plugins-aw).  Each definition mirrors one function or one code region
of that file; line numbers in the doc comments refer to it.  Machine
integers are modelled as `Nat`/`Int`; ioctl results and device state that
the code only observes are passed in as explicit parameters (oracles).
-/

namespace Sunxifb

/-- GStreamer flow return code GST_FLOW_OK, integer value 0. -/
def GST_FLOW_OK : Int := 0

/-- GStreamer flow return code GST_FLOW_ERROR, integer value -5. -/
def GST_FLOW_ERROR : Int := -5

/-- The glib constant FALSE, integer value 0. -/
def gFALSE : Int := 0

/-- Macro `ALIGN_32B(x) = (((x) + (31)) & ~(31))` (line 224): round up to a
multiple of 32.  On naturals, clearing the low five bits of `x + 31` is the
same as subtracting `(x + 31) % 32`. -/
def ALIGN_32B (x : Nat) : Nat := (x + 31) - (x + 31) % 32

/-- The video formats of `sunxifbsink_supported_overlay_formats_table`
(lines 208-221). -/
inductive GstVideoFormat where
  | I420
  | YV12
  | NV12
  | NV21
  | AYUV
  | BGRx
  | YUY2
  | UYVY
  | Y444
  deriving DecidableEq, Repr

open GstVideoFormat

/-- Function `gst_sunxifbsink_get_overlay_video_alignment` (lines 407-436),
reduced to the two values it decides: the gboolean result and the value
stored through `overlay_align` (assigned 15 only on the TRUE path, after
the early `return FALSE` for 4:2:0 planar formats of odd width, which the
C tests as `GST_VIDEO_INFO_WIDTH (video_info) & 1`). -/
def gst_sunxifbsink_get_overlay_video_alignment (format : GstVideoFormat)
    (width : Nat) : Bool × Option Int :=
  if (format = I420 ∨ format = YV12 ∨ format = NV12 ∨ format = NV21) ∧
      width &&& 1 ≠ 0 then
    (false, none)
  else
    (true, some 15)

/-- Function `hwRotateVideoPicture` (lines 481-525) as a fuel-indexed step
function.  `commitOk n` tells whether the n-th TR_COMMIT ioctl returns 0;
`query n` is the result of the n-th counted TR_QUERY ioctl (0 success,
1 busy, -1 timeout).  `phase = false` means control is at the `setup_tr`
label (about to commit the same copied job descriptor again),
`phase = true` means inside the poll loop; `c` and `q` count commits and
queries.  The initial TR_QUERY whose result is immediately overwritten
inside the loop (line 505) is not counted.  Fuel bounds how many steps are
observed; `none` means the loop is still running, matching the unbounded C
loop. -/
def hwRotateVideoPicture (commitOk : Nat → Bool) (query : Nat → Int) :
    Nat → Bool → Nat → Nat → Option Int
  | 0, _, _, _ => none
  | fuel + 1, false, c, q =>
      if commitOk c then hwRotateVideoPicture commitOk query fuel true c q
      else some (-1)
  | fuel + 1, true, c, q =>
      if query q = 1 then
        hwRotateVideoPicture commitOk query fuel true c (q + 1)
      else if query q = -1 then
        hwRotateVideoPicture commitOk query fuel false (c + 1) (q + 1)
      else some (query q)

/-- Helper: any value returned by a terminating run of the poll loop is 0,
or -1 produced by a failed TR_COMMIT; a query timeout never yields a
return value. -/
theorem hwRotate_result_characterization (commitOk : Nat → Bool)
    (query : Nat → Int)
    (hq : ∀ n, query n = 0 ∨ query n = 1 ∨ query n = -1) :
    ∀ fuel phase c q r,
      hwRotateVideoPicture commitOk query fuel phase c q = some r →
      r = 0 ∨ (r = -1 ∧ ∃ n, commitOk n = false) := by
  intro fuel
  induction fuel with
  | zero =>
    intro phase c q r h
    simp [hwRotateVideoPicture] at h
  | succ fuel ih =>
    intro phase c q r h
    cases phase with
    | false =>
      by_cases hc : commitOk c = true
      · rw [hwRotateVideoPicture, if_pos hc] at h
        exact ih true c q r h
      · rw [hwRotateVideoPicture, if_neg hc] at h
        refine Or.inr ⟨?_, c, by simpa using hc⟩
        exact (Option.some.inj h).symm
    | true =>
      rcases hq q with h0 | h1 | hm
      · rw [hwRotateVideoPicture, h0] at h
        norm_num at h
        exact Or.inl (by omega)
      · rw [hwRotateVideoPicture, h1] at h
        norm_num at h
        exact ih true c (q + 1) r h
      · rw [hwRotateVideoPicture, hm] at h
        norm_num at h
        exact ih false (c + 1) (q + 1) r h

/-- Rotation modes of the transform engine (collaborator header sunxi_tr.h);
`rotate_angle_property` values 1, 2, 3 select 90, 180 and 270 degrees, as
the switch mapping the same property for the block-transform engine
documents (lines 1119-1143). -/
inductive tr_mode where
  | rot0
  | rot90
  | rot180
  | rot270
  | hflip
  | vflip
  deriving DecidableEq, Repr

/-- One transform-engine frame descriptor as filled for
`trans_info.dst_frame`: per-plane base addresses, pitches and heights. -/
structure tr_frame where
  laddr0 : Nat
  laddr1 : Nat
  laddr2 : Nat
  pitch0 : Nat
  pitch1 : Nat
  pitch2 : Nat
  height0 : Nat
  height1 : Nat
  height2 : Nat
  deriving DecidableEq, Repr

/-- Destination-frame construction of `gst_sunxifbsink_show_memory_yuv_planar`
(DISPLAY2 branch lines 687-720, legacy branch lines 872-905; the two are
textually identical).  `base` is the physical address of the
parity-selected rotation buffer slot, `width_align` and `height_align` are
the 32-aligned luma width and height of the source.  The plane addresses
are assigned before the mode branch and are mode-independent; the pitches
and heights keep the source dimensions for TR_ROT_180 and transpose them
in the else branch. -/
def dst_frame_of (mode : tr_mode) (base width_align height_align : Nat) :
    tr_frame :=
  { laddr0 := base
    laddr1 := base + width_align * height_align
    laddr2 := base + width_align * height_align * 5 / 4
    pitch0 := if mode = tr_mode.rot180 then width_align else height_align
    pitch1 := (if mode = tr_mode.rot180 then width_align else height_align) / 2
    pitch2 := (if mode = tr_mode.rot180 then width_align else height_align) / 2
    height0 := if mode = tr_mode.rot180 then height_align else width_align
    height1 := (if mode = tr_mode.rot180 then height_align else width_align) / 2
    height2 := (if mode = tr_mode.rot180 then height_align else width_align) / 2 }

/-- The per-presenter `static int m` counter (lines 537 and 976): each
dispatched rotation job evaluates `(++m) % 2`, so the counter is
incremented once per job. -/
def next_m (m : Nat) : Nat := m + 1

/-- Counter value after k jobs, starting from m0. -/
def m_after (m0 : Nat) : Nat → Nat
  | 0 => m0
  | k + 1 => next_m (m_after m0 k)

/-- Destination slot index `rotate_addr_phy[(++m) % 2]` selected by a job
that enters with counter value m (lines 687, 872, 1099, 1110). -/
def job_slot (m : Nat) : Nat := (m + 1) % 2

/-- Slot targeted by the k-th job (0-based) of a presenter whose counter
started at m0. -/
def slot_of_job (m0 k : Nat) : Nat := job_slot (m_after m0 k)

/-- Committed plane addresses after a transform-engine rotation job in
`gst_sunxifbsink_show_memory_yuv_planar`: in the DISPLAY2 branch
(lines 725-727) and in the legacy branch (lines 910-912) alike, `addr[0]`
is recomputed from `rotate_addr_phy[0]` with the index 0 written out,
while `addr[1]` and `addr[2]` are copied from `trans_info.dst_frame`,
whose base is the parity-selected slot.  `phys i` is the physical address
of `rotate_addr_phy[i]`; `m` is the counter value when the job entered. -/
def committed_rotated_addrs (phys : Nat → Nat) (m : Nat) (mode : tr_mode)
    (wa ha : Nat) : Nat × Nat × Nat :=
  let dst := dst_frame_of mode (phys (job_slot m)) wa ha
  (phys 0, dst.laddr1, dst.laddr2)

/-- The layer state consulted and mutated by the layer show/hide calls:
`layer_is_visible` and `layer_id` (a C int, set to -1 by
`gst_sunxifbsink_release_layer`). -/
structure LayerState where
  layer_is_visible : Bool
  layer_id : Int
  deriving DecidableEq, Repr

/-- Function `gst_sunxifbsink_show_layer` (lines 1666-1686).
`enable_result` is the return value of the DispSetLayerEnable wrapper;
the C treats any nonzero value as failure.  Result: the gboolean return
value, the state after the call, and whether the enable command was
issued. -/
def gst_sunxifbsink_show_layer (st : LayerState) (enable_result : Int) :
    Bool × LayerState × Bool :=
  if st.layer_is_visible then (true, st, false)
  else if st.layer_id < 0 then (false, st, false)
  else if enable_result ≠ 0 then (false, st, true)
  else (true, { st with layer_is_visible := true }, true)

/-- Tail of `gst_sunxifbsink_show_memory_yuv_planar` (lines 951-959): the
configuration is committed with DispSetLayerConfig; a negative result
makes the C `return FALSE` out of this GstFlowReturn-typed function,
skipping `gst_sunxifbsink_show_layer`; otherwise the layer is shown and
GST_FLOW_OK returned.  Result: the returned GstFlowReturn as an integer,
the layer state after the call, and whether show_layer was called. -/
def show_memory_yuv_planar_tail (st : LayerState)
    (commit_result enable_result : Int) : Int × LayerState × Bool :=
  if commit_result < 0 then (gFALSE, st, false)
  else (GST_FLOW_OK, (gst_sunxifbsink_show_layer st enable_result).2.1, true)

/-- Tail of `gst_sunxifbsink_show_overlay_yuv_planar` (lines 1334-1340),
with the same commit-then-show structure and the same `return FALSE` on a
negative commit result. -/
def show_overlay_yuv_planar_tail (st : LayerState)
    (commit_result enable_result : Int) : Int × LayerState × Bool :=
  if commit_result < 0 then (gFALSE, st, false)
  else (GST_FLOW_OK, (gst_sunxifbsink_show_layer st enable_result).2.1, true)

/-- Tail of `gst_sunxifbsink_show_overlay_yuv_packed` (lines 1432-1438). -/
def show_overlay_yuv_packed_tail (st : LayerState)
    (commit_result enable_result : Int) : Int × LayerState × Bool :=
  if commit_result < 0 then (gFALSE, st, false)
  else (GST_FLOW_OK, (gst_sunxifbsink_show_layer st enable_result).2.1, true)

/-- Tail of `gst_sunxifbsink_show_overlay_bgrx32` (lines 1510-1516). -/
def show_overlay_bgrx32_tail (st : LayerState)
    (commit_result enable_result : Int) : Int × LayerState × Bool :=
  if commit_result < 0 then (gFALSE, st, false)
  else (GST_FLOW_OK, (gst_sunxifbsink_show_layer st enable_result).2.1, true)

/-- Function `gst_sunxifbsink_show_overlay` (lines 1519-1578), reduced to
the GstFlowReturn value it returns.  `res` starts as GST_FLOW_ERROR
(line 1541); on the physically-contiguous path
`gst_sunxifbsink_show_memory_yuv_planar` is called but its value is never
assigned to `res` (lines 1542-1546); on the other path `res` receives the
result of the presenter selected by the format chain, or stays
GST_FLOW_ERROR for a format outside the chain. -/
def gst_sunxifbsink_show_overlay (phys_contig : Bool)
    (overlay_format : GstVideoFormat)
    (memory_yuv_planar_res yuv_planar_res yuv_packed_res bgrx32_res : Int) :
    Int :=
  let res : Int := GST_FLOW_ERROR
  if phys_contig then
    let _discarded := memory_yuv_planar_res
    res
  else if overlay_format = I420 ∨ overlay_format = YV12 ∨
      overlay_format = Y444 ∨ overlay_format = NV12 ∨
      overlay_format = NV21 then yuv_planar_res
  else if overlay_format = YUY2 ∨ overlay_format = UYVY ∨
      overlay_format = AYUV then yuv_packed_res
  else if overlay_format = BGRx then bgrx32_res
  else res

/-- The display color-space values used by the presenters. -/
inductive disp_color_space where
  | DISP_BT601
  | DISP_BT709
  deriving DecidableEq, Repr

/-- Color-space assignment in the DISPLAY2 branch of
`gst_sunxifbsink_show_memory_yuv_planar` (line 755); its only input is
`video_rectangle.h`, the destination rectangle height. -/
def show_memory_yuv_planar_color_space (rect_h : Int) : disp_color_space :=
  if rect_h < 720 then disp_color_space.DISP_BT601
  else disp_color_space.DISP_BT709

/-- Color-space assignment in the DISPLAY2 branch of
`gst_sunxifbsink_show_overlay_yuv_planar` (line 1244). -/
def show_overlay_yuv_planar_color_space (rect_h : Int) : disp_color_space :=
  if rect_h < 720 then disp_color_space.DISP_BT601
  else disp_color_space.DISP_BT709

/-- Color-space assignment in the DISPLAY2 branch of
`gst_sunxifbsink_show_overlay_yuv_packed` (line 1379). -/
def show_overlay_yuv_packed_color_space (rect_h : Int) : disp_color_space :=
  if rect_h < 720 then disp_color_space.DISP_BT601
  else disp_color_space.DISP_BT709

/-- Color-space assignment in the DISPLAY2 branch of
`gst_sunxifbsink_show_overlay_bgrx32` (line 1468). -/
def show_overlay_bgrx32_color_space (rect_h : Int) : disp_color_space :=
  if rect_h < 720 then disp_color_space.DISP_BT601
  else disp_color_space.DISP_BT709

/-- In the legacy (non-DISPLAY2) branches of all four presenters
(lines 768-948, 1257-1331, 1392-1429, 1480-1507) the current
configuration is read back with DispGetLayerConfig and only address,
size, window, alpha, z-order, work-mode and pipe fields are overwritten;
no color-space field is ever assigned, so the committed configuration
keeps whatever color-space value was read. -/
def legacy_committed_color_space (prior : disp_color_space) :
    disp_color_space :=
  prior

/-- Claim C1: when DispSetLayerConfig returns a negative result, every
presenter skips show_layer and retains the previous layer state — but the
value it returns to its caller is the gboolean FALSE, whose integer value
is GST_FLOW_OK (0), not a flow-error: the claimed flow-error never
reaches the caller. -/
theorem C1_commit_failure_aborts_frame (st : LayerState) (cr er : Int)
    (hcr : cr < 0) :
    show_memory_yuv_planar_tail st cr er = (gFALSE, st, false) ∧
    show_overlay_yuv_planar_tail st cr er = (gFALSE, st, false) ∧
    show_overlay_yuv_packed_tail st cr er = (gFALSE, st, false) ∧
    show_overlay_bgrx32_tail st cr er = (gFALSE, st, false) ∧
    gFALSE = GST_FLOW_OK ∧ gFALSE ≠ GST_FLOW_ERROR := by
  refine ⟨?_, ?_, ?_, ?_, rfl, by decide⟩ <;>
    simp [show_memory_yuv_planar_tail, show_overlay_yuv_planar_tail,
      show_overlay_yuv_packed_tail, show_overlay_bgrx32_tail, hcr]

/-- Witness for C1: a concrete failed commit (result -1) on a hidden layer. -/
theorem C1_commit_failure_witness :
    show_memory_yuv_planar_tail ⟨false, 0⟩ (-1) 0
        = (gFALSE, ⟨false, 0⟩, false) ∧
    show_overlay_yuv_planar_tail ⟨false, 0⟩ (-1) 0
        = (gFALSE, ⟨false, 0⟩, false) ∧
    show_overlay_yuv_packed_tail ⟨false, 0⟩ (-1) 0
        = (gFALSE, ⟨false, 0⟩, false) ∧
    show_overlay_bgrx32_tail ⟨false, 0⟩ (-1) 0
        = (gFALSE, ⟨false, 0⟩, false) ∧
    gFALSE = GST_FLOW_OK ∧ gFALSE ≠ GST_FLOW_ERROR :=
  C1_commit_failure_aborts_frame ⟨false, 0⟩ (-1) 0 (by decide)

/-- Claim C2: on the physically-contiguous path, gst_sunxifbsink_show_overlay
returns GST_FLOW_ERROR for every format and every possible result of the
zero-copy presenter, whose value is discarded. -/
theorem C2_contiguous_path_flow_error (fmt : GstVideoFormat)
    (mres pres qres bres : Int) :
    gst_sunxifbsink_show_overlay true fmt mres pres qres bres
      = GST_FLOW_ERROR := rfl

/-- Claim C3: gst_sunxifbsink_get_overlay_video_alignment returns FALSE
exactly when the format is one of the 4:2:0 planar formats and the width
is odd; on every TRUE path it stores overlay alignment mask 15. -/
theorem C3_overlay_alignment_rule (format : GstVideoFormat) (width : Nat) :
    ((gst_sunxifbsink_get_overlay_video_alignment format width).1 = false ↔
      ((format = I420 ∨ format = YV12 ∨ format = NV12 ∨ format = NV21) ∧
        width % 2 = 1)) ∧
    ((gst_sunxifbsink_get_overlay_video_alignment format width).1 = true →
      (gst_sunxifbsink_get_overlay_video_alignment format width).2
        = some 15) := by
  have hw : width &&& 1 ≠ 0 ↔ width % 2 = 1 := by
    rw [Nat.and_one_is_mod]; omega
  unfold gst_sunxifbsink_get_overlay_video_alignment
  by_cases h : (format = I420 ∨ format = YV12 ∨ format = NV12 ∨
      format = NV21) ∧ width &&& 1 ≠ 0
  · rw [if_pos h]
    constructor
    · exact iff_of_true rfl ⟨h.1, hw.mp h.2⟩
    · intro ht; simp at ht
  · rw [if_neg h]
    constructor
    · constructor
      · intro hf; simp at hf
      · intro hc; exact absurd ⟨hc.1, hw.mpr hc.2⟩ h
    · intro _; rfl

/-- Witness for C3: an even-width packed format gets alignment mask 15. -/
theorem C3_overlay_alignment_witness :
    (gst_sunxifbsink_get_overlay_video_alignment YUY2 3).2 = some 15 :=
  (C3_overlay_alignment_rule YUY2 3).2 (by decide)

/-- Claim C4: assuming TR_QUERY only reports 0 (success), 1 (busy) or
-1 (timeout), a terminating run of hwRotateVideoPicture returns 0 or
returns -1 only because some TR_COMMIT ioctl failed; a query timeout
re-commits the same job (step equation 2), a busy report re-polls (step
equation 3), and a failed commit returns -1 (step equation 4).  No
timeout status is ever returned to the caller. -/
theorem C4_timeout_resubmission (commitOk : Nat → Bool) (query : Nat → Int)
    (hq : ∀ n, query n = 0 ∨ query n = 1 ∨ query n = -1) :
    (∀ fuel phase c q r,
        hwRotateVideoPicture commitOk query fuel phase c q = some r →
        r = 0 ∨ (r = -1 ∧ ∃ n, commitOk n = false)) ∧
    (∀ fuel c q, query q = -1 →
        hwRotateVideoPicture commitOk query (fuel + 1) true c q
          = hwRotateVideoPicture commitOk query fuel false (c + 1) (q + 1)) ∧
    (∀ fuel c q, query q = 1 →
        hwRotateVideoPicture commitOk query (fuel + 1) true c q
          = hwRotateVideoPicture commitOk query fuel true c (q + 1)) ∧
    (∀ fuel c q, commitOk c = false →
        hwRotateVideoPicture commitOk query (fuel + 1) false c q
          = some (-1)) := by
  refine ⟨hwRotate_result_characterization commitOk query hq, ?_, ?_, ?_⟩
  · intro fuel c q hm
    rw [hwRotateVideoPicture, hm]; norm_num
  · intro fuel c q h1
    rw [hwRotateVideoPicture, h1]; norm_num
  · intro fuel c q hc
    rw [hwRotateVideoPicture, hc]; norm_num

/-- A commit oracle whose every TR_COMMIT fails. -/
def commit_always_fails (_n : Nat) : Bool := false

/-- A query oracle that always reports success. -/
def query_always_success (_n : Nat) : Int := 0

/-- Witness for C4: with a failing commit oracle the run returns -1. -/
theorem C4_timeout_resubmission_witness :
    hwRotateVideoPicture commit_always_fails query_always_success 1 false 0 0
      = some (-1) :=
  (C4_timeout_resubmission commit_always_fails query_always_success
      (fun _ => Or.inl rfl)).2.2.2 0 0 0 rfl

/-- Claim C5: for a TR_ROT_180 job the destination keeps the 32-aligned
source dimensions, for TR_ROT_90 and TR_ROT_270 they are transposed, and
the chroma pitches and heights are half the luma values. -/
theorem C5_rotation_geometry (mode : tr_mode) (b w h : Nat)
    (_hm : mode = tr_mode.rot180 ∨ mode = tr_mode.rot90 ∨
      mode = tr_mode.rot270) :
    (dst_frame_of mode b (ALIGN_32B w) (ALIGN_32B h)).pitch0
        = (if mode = tr_mode.rot180 then ALIGN_32B w else ALIGN_32B h) ∧
    (dst_frame_of mode b (ALIGN_32B w) (ALIGN_32B h)).height0
        = (if mode = tr_mode.rot180 then ALIGN_32B h else ALIGN_32B w) ∧
    (dst_frame_of mode b (ALIGN_32B w) (ALIGN_32B h)).pitch1
        = (dst_frame_of mode b (ALIGN_32B w) (ALIGN_32B h)).pitch0 / 2 ∧
    (dst_frame_of mode b (ALIGN_32B w) (ALIGN_32B h)).pitch2
        = (dst_frame_of mode b (ALIGN_32B w) (ALIGN_32B h)).pitch0 / 2 ∧
    (dst_frame_of mode b (ALIGN_32B w) (ALIGN_32B h)).height1
        = (dst_frame_of mode b (ALIGN_32B w) (ALIGN_32B h)).height0 / 2 ∧
    (dst_frame_of mode b (ALIGN_32B w) (ALIGN_32B h)).height2
        = (dst_frame_of mode b (ALIGN_32B w) (ALIGN_32B h)).height0 / 2 :=
  ⟨rfl, rfl, rfl, rfl, rfl, rfl⟩

/-- Witness for C5: a 90-degree job on a 64 by 48 source transposes the
32-aligned dimensions. -/
theorem C5_rotation_geometry_witness :
    (dst_frame_of tr_mode.rot90 0 (ALIGN_32B 64) (ALIGN_32B 48)).pitch0
        = ALIGN_32B 48 ∧
    (dst_frame_of tr_mode.rot90 0 (ALIGN_32B 64) (ALIGN_32B 48)).height0
        = ALIGN_32B 64 := by
  have h := C5_rotation_geometry tr_mode.rot90 0 64 48 (Or.inr (Or.inl rfl))
  exact ⟨h.1.trans (by decide), h.2.1.trans (by decide)⟩

/-- Claim C6 counterexample: with the layer hidden and layer_id = 0 — a
value the claim counts as an invalid sentinel (layer_id less than or
equal to 0) — show_layer issues the enable command and returns TRUE
instead of failing, because line 1673 tests layer_id < 0. -/
theorem C6_show_layer_counterexample :
    (gst_sunxifbsink_show_layer ⟨false, 0⟩ 0).1 = true ∧
    (gst_sunxifbsink_show_layer ⟨false, 0⟩ 0).2.2 = true := by decide

/-- Claim C6 as amended: show_layer is a no-op returning TRUE when the
layer is already visible; it returns FALSE without issuing the enable
command when layer_id is negative (the sentinel is -1, set by
release_layer; 0 is treated as valid); otherwise it issues the enable
command and, when that command succeeds, transitions to Visible. -/
theorem C6_show_layer_amended (st : LayerState) (er : Int) :
    (st.layer_is_visible = true →
      gst_sunxifbsink_show_layer st er = (true, st, false)) ∧
    (st.layer_is_visible = false → st.layer_id < 0 →
      gst_sunxifbsink_show_layer st er = (false, st, false)) ∧
    (st.layer_is_visible = false → 0 ≤ st.layer_id → er = 0 →
      gst_sunxifbsink_show_layer st er
        = (true, { st with layer_is_visible := true }, true)) := by
  refine ⟨?_, ?_, ?_⟩
  · intro hv; simp [gst_sunxifbsink_show_layer, hv]
  · intro hv hid; simp [gst_sunxifbsink_show_layer, hv, hid]
  · intro hv hid her
    simp only [gst_sunxifbsink_show_layer]
    rw [if_neg (by simp [hv]), if_neg (not_lt.mpr hid),
      if_neg (by simp [her])]

/-- Witness for C6: a hidden layer with valid id 3 and a successful enable
command becomes visible. -/
theorem C6_show_layer_witness :
    gst_sunxifbsink_show_layer ⟨false, 3⟩ 0 = (true, ⟨true, 3⟩, true) :=
  (C6_show_layer_amended ⟨false, 3⟩ 0).2.2 rfl (by decide) rfl

/-- Claim C7: the destination slots of consecutive rotation jobs of the
same presenter always differ, and every slot index is 0 or 1. -/
theorem C7_parity_alternates (m0 k : Nat) :
    slot_of_job m0 (k + 1) ≠ slot_of_job m0 k ∧ slot_of_job m0 k < 2 := by
  simp only [slot_of_job, job_slot, m_after, next_m]
  omega

/-- Claim C8: the destination plane addresses derive from the single base
address: plane 1 at base plus pitch times height, plane 2 at base plus
pitch times height times 5/4, where the pitch-height product equals the
product of the 32-aligned source width and height for every rotation
mode. -/
theorem C8_dst_plane_addresses (mode : tr_mode) (b w h : Nat) :
    (dst_frame_of mode b (ALIGN_32B w) (ALIGN_32B h)).laddr0 = b ∧
    (dst_frame_of mode b (ALIGN_32B w) (ALIGN_32B h)).laddr1
        = b + ALIGN_32B w * ALIGN_32B h ∧
    (dst_frame_of mode b (ALIGN_32B w) (ALIGN_32B h)).laddr2
        = b + ALIGN_32B w * ALIGN_32B h * 5 / 4 ∧
    (dst_frame_of mode b (ALIGN_32B w) (ALIGN_32B h)).pitch0 *
        (dst_frame_of mode b (ALIGN_32B w) (ALIGN_32B h)).height0
        = ALIGN_32B w * ALIGN_32B h := by
  refine ⟨rfl, rfl, rfl, ?_⟩
  by_cases hm : mode = tr_mode.rot180 <;>
    simp [dst_frame_of, hm, Nat.mul_comm]

/-- Claim C9: after a rotation job the committed luma address is always the
physical address of slot 0, while planes 1 and 2 derive from the
parity-selected slot; on a job whose parity selected slot 1 the luma and
chroma addresses therefore refer to different buffer slots. -/
theorem C9_rotated_luma_always_slot0 (phys : Nat → Nat) (m : Nat)
    (mode : tr_mode) (wa ha : Nat) :
    (committed_rotated_addrs phys m mode wa ha).1 = phys 0 ∧
    (committed_rotated_addrs phys m mode wa ha).2.1
        = phys (job_slot m) + wa * ha ∧
    (committed_rotated_addrs phys m mode wa ha).2.2
        = phys (job_slot m) + wa * ha * 5 / 4 ∧
    (job_slot m = 1 → phys 0 ≠ phys 1 →
      (committed_rotated_addrs phys m mode wa ha).1
        ≠ phys (job_slot m)) := by
  refine ⟨rfl, rfl, rfl, ?_⟩
  intro h1 hne
  rw [h1]
  simpa [committed_rotated_addrs] using hne

/-- Two distinct slot base addresses used to instantiate claim C9. -/
def two_slot_addrs (i : Nat) : Nat := 4096 * (i + 1)

/-- Witness for C9: with counter 0 the job writes slot 1, yet the committed
luma address is slot 0. -/
theorem C9_rotated_luma_witness :
    (committed_rotated_addrs two_slot_addrs 0 tr_mode.rot90 64 64).1
      ≠ two_slot_addrs (job_slot 0) :=
  (C9_rotated_luma_always_slot0 two_slot_addrs 0 tr_mode.rot90 64 64).2.2.2
    (by decide) (by decide)

/-- Claim C10 counterexample: with destination rectangle height 100 (less
than 720, so the claimed rule demands DISP_BT601) a legacy-variant
presenter whose read-back configuration held DISP_BT709 commits
DISP_BT709, because the legacy branches never write the color-space
field. -/
theorem C10_color_space_counterexample :
    legacy_committed_color_space disp_color_space.DISP_BT709
        = disp_color_space.DISP_BT709 ∧
    (100 : Int) < 720 ∧
    disp_color_space.DISP_BT709 ≠ disp_color_space.DISP_BT601 := by decide

/-- Claim C10 as amended: in the DISPLAY2 build variant all four presenters
select DISP_BT601 when the destination rectangle height is below 720 and
DISP_BT709 otherwise, depending on nothing but that height; the legacy
variant leaves the color-space field at whatever value DispGetLayerConfig
read back. -/
theorem C10_color_space_amended (rect_h : Int) (prior : disp_color_space) :
    show_memory_yuv_planar_color_space rect_h
        = (if rect_h < 720 then disp_color_space.DISP_BT601
           else disp_color_space.DISP_BT709) ∧
    show_overlay_yuv_planar_color_space rect_h
        = show_memory_yuv_planar_color_space rect_h ∧
    show_overlay_yuv_packed_color_space rect_h
        = show_memory_yuv_planar_color_space rect_h ∧
    show_overlay_bgrx32_color_space rect_h
        = show_memory_yuv_planar_color_space rect_h ∧
    legacy_committed_color_space prior = prior :=
  ⟨rfl, rfl, rfl, rfl, rfl⟩

end Sunxifb
